import Mathlib

/-!
Verification development for a small Python-subset interpreter written in Rust
(crate `rpython`): an AST-to-bytecode compiler (`src/ast.rs`), a stack-based
virtual machine (`src/vm.rs`), and a tagged object model (`src/object.rs`,
`src/bytecode.rs`).  This file is a shallow embedding of the data model and of
the operations exercised by the checked claims, translated from that source.

Modelling conventions, stated once here:

* Rust `i64` is modelled by `Int` (the spec places bignum overflow out of
  scope); `f64` is modelled by `Rat` — no claim below exercises float
  arithmetic, NaN or infinities.  `usize::MAX`, used as the "variadic" arity
  sentinel for native functions, is modelled by `Option Nat` with `none` as
  the sentinel.
* `Rc<RefCell<...>>` containers (List, Dict, Set, Module) are modelled by
  addresses into an explicit heap of cells carried in the VM state, so that
  interior mutation is visible through every alias, as in the source.
* `HashMap<String, V>` and `IndexMap<String, V>` are modelled by association
  lists with insert-or-replace-in-place semantics (`mapInsert`), which
  preserves the `IndexMap` insertion order; for `HashMap` the order is
  unobservable through the lookups the claims use.
* Parsing is an external collaborator of the crate (ruff); the embedding
  starts from the delivered AST.  AST statement and expression forms that the
  compiler's `match` does not handle (For, While, Import, attribute access,
  ...) are carried as explicit constructors so that the compiler's catch-all
  `_ => Err(...)` arms are represented faithfully.
* Rust panics (out-of-range pool indices, unhashable set elements) are
  modelled as distinguished faults whose message begins with `panic:`; none
  is reachable from compiled code.
* The class/attribute subsystem (`ClassDef`, `LoadAttr` on instances,
  `StoreAttr`) synthesises host closures; it is outside the embedded fragment
  (no claim touches it, and the compiler in `src/ast.rs` has no arm that
  emits those opcodes), so those dispatch arms fault with `unmodelled:`.
* Console output of `print` is ignored; its value `None` is returned as in
  the source.
-/

namespace RPy

/-- Opcode enum, translated from `Op` in `src/opcode.rs`.  Operands are pool
indices, absolute instruction addresses, or arity counts, as in the source. -/
inductive Op where
  | loadConst (idx : Nat)
  | loadName (idx : Nat)
  | storeName (idx : Nat)
  | loadGlobal (idx : Nat)
  | storeGlobal (idx : Nat)
  | pop
  | ret
  | call (argc : Nat)
  | buildList (count : Nat)
  | buildDict (count : Nat)
  | buildTuple (count : Nat)
  | buildSet (count : Nat)
  | loadIndex
  | storeIndex
  | defFn (name : Nat) (arity : Nat) (codeIdx : Nat)
  | unaryNeg
  | unaryPos
  | add
  | sub
  | mul
  | div
  | eq
  | ne
  | lt
  | le
  | gt
  | ge
  | jump (target : Nat)
  | jumpIfFalse (target : Nat)
  | jumpIfTrue (target : Nat)
  | setupLoop (exitAddr : Nat)
  | popBlock
  | breakOp
  | continueOp
  | forIter (exitAddr : Nat)
  | getIter
  | classDef (name : Nat) (codeIdx : Nat)
  | loadAttr (idx : Nat)
  | storeAttr (idx : Nat)
  | callMethod (argc : Nat)
  | importName (idx : Nat)
  | importFrom (module : Nat) (names : List Nat)
  | importStar (idx : Nat)
deriving DecidableEq, Repr

/-- Tags identifying the host closures of the builtin native functions
registered by `Vm::with_builtins` in `src/vm.rs`.  The tag stands in for the
`Rc<dyn Fn>` field of `PyNativeFunction`; dispatch is by `nativeCall`. -/
inductive NativeTag where
  | setNew
  | rangeFn
  | printFn
  | typeFn
deriving DecidableEq, Repr

mutual
/-- Tagged value model, translated from `PyObject` in `src/object.rs`.
`list`/`dict`/`set`/`module` carry a heap address standing for the
`Rc<RefCell<...>>` handle; `function` inlines the fields of `PyFunction`
(`name`, `arity`, `code`, `globals`, where `globals` is the whole captured
`Env`, as in the source); `nativeFunction` carries the fields of
`PyNativeFunction` with a `NativeTag` standing for the closure.
The `Class`/`Instance`/`NativeClass` variants are outside the embedded
fragment (see the header). -/
inductive PyObject where
  | int (v : Int)
  | float (v : Rat)
  | bool (v : Bool)
  | str (v : String)
  | none
  | list (addr : Nat)
  | dict (addr : Nat)
  | tuple (items : List PyObject)
  | set (addr : Nat)
  | function (name : String) (arity : Nat) (code : CodeObject) (globals : Env)
  | nativeFunction (name : String) (arity : Option Nat) (tag : NativeTag)
  | nativeModule (name : String) (dict : List (String × PyObject))
  | pyType (name : String)
  | module (addr : Nat)

/-- Environment triple, translated from `Env` in `src/vm.rs`:
locals, globals, builtins, each a map from strings to values. -/
inductive Env where
  | mk (locals : List (String × PyObject)) (globals : List (String × PyObject))
      (builtins : List (String × PyObject))

/-- Compiled code unit, translated from `CodeObject` in `src/bytecode.rs`:
constant pool, name pool, instruction sequence, nested code objects. -/
inductive CodeObject where
  | mk (consts : List PyObject) (names : List String) (instructions : List Op)
      (nested : List CodeObject)
end

def Env.locals : Env → List (String × PyObject)
  | .mk l _ _ => l

def Env.globals : Env → List (String × PyObject)
  | .mk _ g _ => g

def Env.builtins : Env → List (String × PyObject)
  | .mk _ _ b => b

def Env.withLocals : Env → List (String × PyObject) → Env
  | .mk _ g b, l => .mk l g b

def CodeObject.consts : CodeObject → List PyObject
  | .mk c _ _ _ => c

def CodeObject.names : CodeObject → List String
  | .mk _ n _ _ => n

def CodeObject.instructions : CodeObject → List Op
  | .mk _ _ i _ => i

def CodeObject.nested : CodeObject → List CodeObject
  | .mk _ _ _ n => n

def CodeObject.empty : CodeObject := .mk [] [] [] []

def CodeObject.withConsts : CodeObject → List PyObject → CodeObject
  | .mk _ n i s, c => .mk c n i s

def CodeObject.withNames : CodeObject → List String → CodeObject
  | .mk c _ i s, n => .mk c n i s

/-- Append one instruction (`code.instructions.push(op)` in the source). -/
def CodeObject.pushIns : CodeObject → Op → CodeObject
  | .mk c n i s, op => .mk c n (i ++ [op]) s

/-- Overwrite the instruction at an index (jump patching,
`code.instructions[j] = op` in the source). -/
def CodeObject.setIns : CodeObject → Nat → Op → CodeObject
  | .mk c n i s, j, op => .mk c n (i.set j op) s

def CodeObject.pushNested : CodeObject → CodeObject → CodeObject
  | .mk c n i s, sub => .mk c n i (s ++ [sub])

/-- Map lookup on an association list (`HashMap::get` / `IndexMap::get`). -/
def lookupStr {α : Type} : List (String × α) → String → Option α
  | [], _ => Option.none
  | (k2, v) :: rest, k => if k2 == k then some v else lookupStr rest k

/-- Map insert on an association list: replace the value in place if the key
is present, else append (`HashMap::insert` / `IndexMap::insert`; `IndexMap`
keeps the original position of a replaced key, which this mirrors). -/
def mapInsert {α : Type} : List (String × α) → String → α → List (String × α)
  | [], k, v => [(k, v)]
  | (k2, v2) :: rest, k, v =>
      if k2 == k then (k2, v) :: rest else (k2, v2) :: mapInsert rest k v

/-- Index of the first element satisfying `p`, translated from the
`iter().enumerate().find(...)` scans in `Compiler::const_index` and
`Compiler::name_index` (`src/ast.rs`). -/
def scanIdx {α : Type} (p : α → Bool) : List α → Option Nat
  | [] => Option.none
  | a :: rest => if p a then some 0 else (scanIdx p rest).map (· + 1)

mutual
/-- Structural equality on values, translated from the derived `PartialEq` of
`PyObject` together with the manual impls in `src/object.rs`
(`PyNativeFunction`: name and arity only; `PyNativeModule`: name only).
For the reference variants (list/dict/set/module) Rust dereferences the `Rc`
and compares contents; here addresses are compared.  The two agree everywhere
this equality is used by the claims: the compiler interns only scalar
constants (Int/Float/Bool/Str/None), on which the definitions coincide. -/
def pyEq : PyObject → PyObject → Bool
  | .int a, .int b => a == b
  | .float a, .float b => a == b
  | .bool a, .bool b => a == b
  | .str a, .str b => a == b
  | .none, .none => true
  | .list a, .list b => a == b
  | .dict a, .dict b => a == b
  | .set a, .set b => a == b
  | .module a, .module b => a == b
  | .tuple xs, .tuple ys => pyEqList xs ys
  | .function n1 a1 c1 g1, .function n2 a2 c2 g2 =>
      n1 == n2 && a1 == a2 && codeEq c1 c2 && envEq g1 g2
  | .nativeFunction n1 a1 _, .nativeFunction n2 a2 _ => n1 == n2 && a1 == a2
  | .nativeModule n1 _, .nativeModule n2 _ => n1 == n2
  | .pyType n1, .pyType n2 => n1 == n2
  | _, _ => false
termination_by structural x => x

def pyEqList : List PyObject → List PyObject → Bool
  | [], [] => true
  | x :: xs, y :: ys => pyEq x y && pyEqList xs ys
  | _, _ => false
termination_by structural x => x

def pairsEq : List (String × PyObject) → List (String × PyObject) → Bool
  | [], [] => true
  | (k1, v1) :: r1, (k2, v2) :: r2 => k1 == k2 && pyEq v1 v2 && pairsEq r1 r2
  | _, _ => false
termination_by structural x => x

def envEq : Env → Env → Bool
  | .mk l1 g1 b1, .mk l2 g2 b2 => pairsEq l1 l2 && pairsEq g1 g2 && pairsEq b1 b2
termination_by structural x => x

def codeEq : CodeObject → CodeObject → Bool
  | .mk c1 n1 i1 s1, .mk c2 n2 i2 s2 =>
      pyEqList c1 c2 && n1 == n2 && i1 == i2 && codeEqList s1 s2
termination_by structural x => x

def codeEqList : List CodeObject → List CodeObject → Bool
  | [], [] => true
  | x :: xs, y :: ys => codeEq x y && codeEqList xs ys
  | _, _ => false
termination_by structural x => x
end

/-- Heap cells standing for the `Rc<RefCell<...>>` payloads of the
reference-shared variants. -/
inductive Cell where
  | listC (items : List PyObject)
  | dictC (entries : List (String × PyObject))
  | setC (items : List PyObject)
  | moduleC (name : String) (dict : List (String × PyObject))

/-- Truthiness, translated from `is_falsey` in `src/vm.rs`.  The emptiness
checks on reference variants read the heap; a dangling address (unreachable,
since `Rc` handles are always valid) counts as non-falsey. -/
def isFalsey (heap : List Cell) : PyObject → Bool
  | .bool b => !b
  | .none => true
  | .int i => i == 0
  | .float x => x == 0
  | .str s => s.isEmpty
  | .list a =>
      match heap.get? a with
      | some (.listC items) => items.isEmpty
      | _ => false
  | .dict a =>
      match heap.get? a with
      | some (.dictC entries) => entries.isEmpty
      | _ => false
  | .tuple t => t.isEmpty
  | .set a =>
      match heap.get? a with
      | some (.setC items) => items.isEmpty
      | _ => false
  | _ => false

/-- Translated from `arith_add` in `src/vm.rs`. -/
def arithAdd : PyObject → PyObject → Except String PyObject
  | .int x, .int y => .ok (.int (x + y))
  | .float x, .float y => .ok (.float (x + y))
  | .int x, .float y => .ok (.float ((x : Rat) + y))
  | .float x, .int y => .ok (.float (x + (y : Rat)))
  | .str a, .str b => .ok (.str (a ++ b))
  | _, _ => .error "TypeError: unsupported operand type(s) for +"

/-- Translated from `arith_sub` in `src/vm.rs`. -/
def arithSub : PyObject → PyObject → Except String PyObject
  | .int x, .int y => .ok (.int (x - y))
  | .float x, .float y => .ok (.float (x - y))
  | .int x, .float y => .ok (.float ((x : Rat) - y))
  | .float x, .int y => .ok (.float (x - (y : Rat)))
  | _, _ => .error "TypeError: unsupported operand type(s) for -"

/-- Translated from `arith_mul` in `src/vm.rs`. -/
def arithMul : PyObject → PyObject → Except String PyObject
  | .int x, .int y => .ok (.int (x * y))
  | .float x, .float y => .ok (.float (x * y))
  | .int x, .float y => .ok (.float ((x : Rat) * y))
  | .float x, .int y => .ok (.float (x * (y : Rat)))
  | _, _ => .error "TypeError: unsupported operand type(s) for *"

/-- Translated from `arith_div` in `src/vm.rs` (true division: Int/Int also
yields Float).  Division by zero yields IEEE infinities in the source; under
the `Rat` model it yields 0 — no claim divides. -/
def arithDiv : PyObject → PyObject → Except String PyObject
  | .int x, .int y => .ok (.float ((x : Rat) / (y : Rat)))
  | .float x, .float y => .ok (.float (x / y))
  | .int x, .float y => .ok (.float ((x : Rat) / y))
  | .float x, .int y => .ok (.float (x / (y : Rat)))
  | _, _ => .error "TypeError: unsupported operand type(s) for /"

/-- Translated from `cmp_lt` in `src/vm.rs`. -/
def cmpLt : PyObject → PyObject → Except String PyObject
  | .int x, .int y => .ok (.bool (x < y))
  | .float x, .float y => .ok (.bool (x < y))
  | .int x, .float y => .ok (.bool ((x : Rat) < y))
  | .float x, .int y => .ok (.bool (x < (y : Rat)))
  | .str a, .str b => .ok (.bool (a < b))
  | _, _ => .error "TypeError: unsupported comparison"

/-- Translated from `cmp_le` in `src/vm.rs`. -/
def cmpLe : PyObject → PyObject → Except String PyObject
  | .int x, .int y => .ok (.bool (x ≤ y))
  | .float x, .float y => .ok (.bool (x ≤ y))
  | .int x, .float y => .ok (.bool ((x : Rat) ≤ y))
  | .float x, .int y => .ok (.bool (x ≤ (y : Rat)))
  | .str a, .str b => .ok (.bool (a ≤ b))
  | _, _ => .error "TypeError: unsupported comparison"

/-- Translated from `cmp_gt` in `src/vm.rs`. -/
def cmpGt : PyObject → PyObject → Except String PyObject
  | .int x, .int y => .ok (.bool (x > y))
  | .float x, .float y => .ok (.bool (x > y))
  | .int x, .float y => .ok (.bool ((x : Rat) > y))
  | .float x, .int y => .ok (.bool (x > (y : Rat)))
  | .str a, .str b => .ok (.bool (a > b))
  | _, _ => .error "TypeError: unsupported comparison"

/-- Translated from `cmp_ge` in `src/vm.rs`. -/
def cmpGe : PyObject → PyObject → Except String PyObject
  | .int x, .int y => .ok (.bool (x ≥ y))
  | .float x, .float y => .ok (.bool (x ≥ y))
  | .int x, .float y => .ok (.bool ((x : Rat) ≥ y))
  | .float x, .int y => .ok (.bool (x ≥ (y : Rat)))
  | .str a, .str b => .ok (.bool (a ≥ b))
  | _, _ => .error "TypeError: unsupported comparison"

/-- Ascending arm of the materialisation loop in the `range` builtin
(`src/vm.rs`): `while i < stop { items.push(i); i += step }` for `step > 0`.
The `0 < step` conjunct in the guard is the loop invariant of the branch that
calls this (the builtin only reaches it with a positive step) and serves as
the termination measure's precondition; it never changes the result on the
calls that occur. -/
def rangeUp (i stop step : Int) : List Int :=
  if _h : 0 < step ∧ i < stop then i :: rangeUp (i + step) stop step else []
termination_by (stop - i).toNat
decreasing_by
  omega

/-- Descending arm of the `range` loop: `while i > stop { ...; i += step }`
for `step < 0`, with the same convention as `rangeUp`. -/
def rangeDown (i stop step : Int) : List Int :=
  if _h : step < 0 ∧ stop < i then i :: rangeDown (i + step) stop step else []
termination_by (i - stop).toNat
decreasing_by
  omega

/-- Item construction of the `range` builtin: positive step takes the
ascending loop, otherwise the descending loop, as in the source. -/
def rangeItems (start stop step : Int) : List PyObject :=
  (if step > 0 then rangeUp start stop step else rangeDown start stop step).map
    PyObject.int

/-- Argument analysis and result of the `range` builtin closure registered in
`Vm::with_builtins` (`src/vm.rs`), translated arm by arm; the produced item
vector is wrapped into a fresh heap list by the caller. -/
def rangeNative : List PyObject → Except String (List PyObject)
  | [.int stop] => .ok (rangeItems 0 stop 1)
  | [_] => .error "TypeError: range() argument must be an integer"
  | [.int start, .int stop] => .ok (rangeItems start stop 1)
  | [_, _] => .error "TypeError: range() arguments must be integers"
  | [.int start, .int stop, .int step] =>
      if step == 0 then .error "ValueError: range() arg 3 must not be zero"
      else .ok (rangeItems start stop step)
  | [_, _, _] => .error "TypeError: range() arguments must be integers"
  | _ => .error "TypeError: range expected 1 to 3 arguments"

/-- Variant-to-type-name mapping of the `type` builtin (`src/vm.rs`).  The
`Instance`/`Class`/`NativeClass` arms are outside the embedded fragment. -/
def typeNameOf : PyObject → String
  | .int _ => "int"
  | .float _ => "float"
  | .bool _ => "bool"
  | .str _ => "str"
  | .list _ => "list"
  | .dict _ => "dict"
  | .tuple _ => "tuple"
  | .set _ => "set"
  | .none => "NoneType"
  | .function _ _ _ _ => "function"
  | .nativeFunction _ _ _ => "native_function"
  | .nativeModule _ _ => "module"
  | .pyType _ => "type"
  | .module _ => "module"

/-- Dispatch of the builtin native-function closures registered by
`Vm::with_builtins` (`src/vm.rs`), heap-passing because `set` and `range`
allocate.  `print` writes to the console (ignored here) and returns None. -/
def nativeCall (tag : NativeTag) (args : List PyObject) (heap : List Cell) :
    Except String (PyObject × List Cell) :=
  match tag with
  | .setNew => .ok (.set heap.length, heap ++ [.setC []])
  | .rangeFn =>
      match rangeNative args with
      | .ok items => .ok (.list heap.length, heap ++ [.listC items])
      | .error e => .error e
  | .printFn => .ok (.none, heap)
  | .typeFn =>
      match args with
      | a :: _ => .ok (.pyType (typeNameOf a), heap)
      | [] => .error "panic: index out of bounds"

/-- Builtins map installed by `Vm::with_builtins` (`src/vm.rs`): `set`,
`range`, `print`, `type`.  `none` arity is the `usize::MAX` variadic
sentinel. -/
def builtinsMap : List (String × PyObject) :=
  [("set", .nativeFunction "set" (some 0) .setNew),
   ("range", .nativeFunction "range" Option.none .rangeFn),
   ("print", .nativeFunction "print" Option.none .printFn),
   ("type", .nativeFunction "type" (some 1) .typeFn)]

/-- Unary operators of the delivered AST (`ruff_python_ast::UnaryOp`);
`uOther` covers the forms (`Not`, `Invert`) the compiler rejects. -/
inductive UOp where
  | uAdd
  | uSub
  | uOther
deriving DecidableEq

/-- Binary operators of the delivered AST (`ruff_python_ast::Operator`);
`bOther` covers the forms the compiler rejects. -/
inductive BOp where
  | bAdd
  | bSub
  | bMult
  | bDiv
  | bOther
deriving DecidableEq

/-- Comparison operators of the delivered AST (`ruff_python_ast::CmpOp`);
`cOther` covers the forms (`Is`, `In`, ...) the compiler rejects. -/
inductive CmpOp where
  | cEq
  | cNotEq
  | cLt
  | cLtE
  | cGt
  | cGtE
  | cOther
deriving DecidableEq

mutual
/-- Expression forms of the delivered AST, restricted to the shapes
`Compiler::compile_expr` (`src/ast.rs`) matches on.  `numberLit` splits
ruff's NumberLiteral into its int and float cases; `otherExpr` covers every
remaining ruff form (attribute access, lambda, ...), which the compiler's
catch-all arm rejects.  Dict items carry an optional key: a missing key is
ruff's dict-unpacking form, rejected by the compiler. -/
inductive Expr where
  | booleanLit (value : Bool)
  | stringLit (value : String)
  | intLit (value : Int)
  | floatLit (value : Rat)
  | noneLit
  | unaryOp (op : UOp) (operand : Expr)
  | name (id : String)
  | listExpr (elts : List Expr)
  | dictExpr (items : List (Option Expr × Expr))
  | tupleExpr (elts : List Expr)
  | setExpr (elts : List Expr)
  | subscript (value : Expr) (slice : Expr)
  | binOp (left : Expr) (op : BOp) (right : Expr)
  | compare (left : Expr) (ops : List CmpOp) (comparators : List Expr)
  | callExpr (func : Expr) (args : List Expr)
  | otherExpr

/-- Statement forms of the delivered AST, restricted to the shapes
`Compiler::compile_stmt` (`src/ast.rs`) matches on, plus explicit
constructors (`forStmt`, `importStmt`, `otherStmt`) for forms the compiler's
catch-all arm rejects.  `ifStmt` mirrors ruff's `elif_else_clauses`: each
clause is an optional test (none for the final else) and a body. -/
inductive Stmt where
  | assign (targets : List Expr) (value : Expr)
  | exprStmt (value : Expr)
  | ifStmt (test : Expr) (body : List Stmt)
      (elifElseClauses : List (Option Expr × List Stmt))
  | functionDef (name : String) (params : List String) (body : List Stmt)
  | returnStmt (value : Option Expr)
  | forStmt (target : Expr) (iter : Expr) (body : List Stmt)
  | importStmt (moduleName : String)
  | otherStmt
end

/-- Name-pool interning, translated from `Compiler::name_index`
(`src/ast.rs`): linear scan by string equality, append if absent; returns the
index and the (possibly extended) code object. -/
def nameIndex (code : CodeObject) (s : String) : Nat × CodeObject :=
  match scanIdx (fun n => n == s) code.names with
  | some i => (i, code)
  | Option.none => (code.names.length, code.withNames (code.names ++ [s]))

/-- Constant-pool interning, translated from `Compiler::const_index`
(`src/ast.rs`): linear scan by structural equality (`PartialEq`), append if
absent. -/
def constIndex (code : CodeObject) (v : PyObject) : Nat × CodeObject :=
  match scanIdx (fun c => pyEq c v) code.consts with
  | some i => (i, code)
  | Option.none => (code.consts.length, code.withConsts (code.consts ++ [v]))

mutual
/-- Expression lowering, translated arm by arm from `Compiler::compile_expr`
(`src/ast.rs`).  For calls, `argc` is `call.arguments.len()` while only the
positional args are compiled, exactly as in the source. -/
def compileExpr : Expr → CodeObject → Except String CodeObject
  | .booleanLit b, code =>
      let (idx, code) := constIndex code (.bool b)
      .ok (code.pushIns (.loadConst idx))
  | .stringLit s, code =>
      let (idx, code) := constIndex code (.str s)
      .ok (code.pushIns (.loadConst idx))
  | .intLit i, code =>
      let (idx, code) := constIndex code (.int i)
      .ok (code.pushIns (.loadConst idx))
  | .floatLit q, code =>
      let (idx, code) := constIndex code (.float q)
      .ok (code.pushIns (.loadConst idx))
  | .noneLit, code =>
      let (idx, code) := constIndex code .none
      .ok (code.pushIns (.loadConst idx))
  | .unaryOp op operand, code => do
      let code ← compileExpr operand code
      match op with
      | .uAdd => .ok (code.pushIns .unaryPos)
      | .uSub => .ok (code.pushIns .unaryNeg)
      | .uOther => .error "unsupported unary operator"
  | .name n, code =>
      let (idx, code) := nameIndex code n
      .ok (code.pushIns (.loadName idx))
  | .listExpr elts, code => do
      let code ← compileExprList elts code
      .ok (code.pushIns (.buildList elts.length))
  | .dictExpr items, code => do
      let code ← compileDictItems items code
      .ok (code.pushIns (.buildDict items.length))
  | .tupleExpr elts, code => do
      let code ← compileExprList elts code
      .ok (code.pushIns (.buildTuple elts.length))
  | .setExpr elts, code => do
      let code ← compileExprList elts code
      .ok (code.pushIns (.buildSet elts.length))
  | .subscript v s, code => do
      let code ← compileExpr v code
      let code ← compileExpr s code
      .ok (code.pushIns .loadIndex)
  | .binOp l op r, code => do
      let code ← compileExpr l code
      let code ← compileExpr r code
      match op with
      | .bAdd => .ok (code.pushIns .add)
      | .bSub => .ok (code.pushIns .sub)
      | .bMult => .ok (code.pushIns .mul)
      | .bDiv => .ok (code.pushIns .div)
      | .bOther => .error "unsupported binop"
  | .compare l ops comps, code =>
      match ops, comps with
      | [op], [c] => do
          let code ← compileExpr l code
          let code ← compileExpr c code
          match op with
          | .cEq => .ok (code.pushIns .eq)
          | .cNotEq => .ok (code.pushIns .ne)
          | .cLt => .ok (code.pushIns .lt)
          | .cLtE => .ok (code.pushIns .le)
          | .cGt => .ok (code.pushIns .gt)
          | .cGtE => .ok (code.pushIns .ge)
          | .cOther => .error "unsupported comparison"
      | _, _ => .error "unsupported comparison"
  | .callExpr f args, code => do
      let code ← compileExpr f code
      let code ← compileExprList args code
      .ok (code.pushIns (.call args.length))
  | .otherExpr, _ => .error "unsupported expression"
termination_by structural e => e

/-- Compile a list of expressions in order (the argument/element loops of
`compile_expr`). -/
def compileExprList : List Expr → CodeObject → Except String CodeObject
  | [], code => .ok code
  | e :: rest, code => do
      let code ← compileExpr e code
      compileExprList rest code
termination_by structural l => l

/-- Compile dict items, key then value; a missing key is the dict-unpacking
form the source rejects. -/
def compileDictItems :
    List (Option Expr × Expr) → CodeObject → Except String CodeObject
  | [], code => .ok code
  | (some k, v) :: rest, code => do
      let code ← compileExpr k code
      let code ← compileExpr v code
      compileDictItems rest code
  | (Option.none, _) :: _, _ => .error "unsupported dict unpacking"
termination_by structural l => l
end

mutual
/-- Statement lowering, translated arm by arm from `Compiler::compile_stmt`
(`src/ast.rs`).  Note the two source behaviours the claims probe: for an
assignment the value expression is compiled once before the target match and,
for a subscript target, a second time inside it; and for if/elif/else the
clause bodies are compiled in sequence with the clause tests ignored. -/
def compileStmt : Stmt → CodeObject → Except String CodeObject
  | .assign targets value, code =>
      match targets with
      | [t] => do
          let code ← compileExpr value code
          match t with
          | .name n =>
              let (idx, code) := nameIndex code n
              .ok (code.pushIns (.storeName idx))
          | .subscript v s => do
              let code ← compileExpr v code
              let code ← compileExpr s code
              let code ← compileExpr value code
              .ok (code.pushIns .storeIndex)
          | _ => .error "unsupported assignment target"
      | _ => .error "unsupported assignment"
  | .exprStmt e, code => compileExpr e code
  | .ifStmt test body clauses, code => do
      let code ← compileExpr test code
      let elseJump := code.instructions.length
      let code := code.pushIns (.jumpIfFalse 0)
      let code ← compileStmtList body code
      let (endJump, code) :=
        if clauses.isEmpty then (Option.none, code)
        else (some code.instructions.length, code.pushIns (.jump 0))
      let code := code.setIns elseJump (.jumpIfFalse code.instructions.length)
      let code ← compileClauseBodies clauses code
      let code :=
        match endJump with
        | some j => code.setIns j (.jump code.instructions.length)
        | Option.none => code
      .ok code
  | .functionDef fname params body, code => do
      let fcode := params.foldl (fun c p => (nameIndex c p).2) CodeObject.empty
      let fcode ← compileStmtList body fcode
      let (noneIdx, fcode) := constIndex fcode .none
      let fcode := fcode.pushIns (.loadConst noneIdx)
      let codeIdx := code.nested.length
      let code := code.pushNested fcode
      let (nameIdx, code) := nameIndex code fname
      .ok (code.pushIns (.defFn nameIdx params.length codeIdx))
  | .returnStmt v, code => do
      let code ←
        match v with
        | some e => compileExpr e code
        | Option.none =>
            let (noneIdx, code) := constIndex code .none
            .ok (code.pushIns (.loadConst noneIdx))
      .ok (code.pushIns .ret)
  | .forStmt _ _ _, _ => .error "unsupported statement"
  | .importStmt _, _ => .error "unsupported statement"
  | .otherStmt, _ => .error "unsupported statement"
termination_by structural s => s

/-- Compile a statement list in order (the body loops of `compile_stmt` and
`compile_body`). -/
def compileStmtList : List Stmt → CodeObject → Except String CodeObject
  | [], code => .ok code
  | s :: rest, code => do
      let code ← compileStmt s code
      compileStmtList rest code
termination_by structural l => l

/-- Compile the elif/else clause bodies in sequence.  As in the source loop
over `if_stmt.elif_else_clauses`, the clause tests are not compiled. -/
def compileClauseBodies :
    List (Option Expr × List Stmt) → CodeObject → Except String CodeObject
  | [], code => .ok code
  | (_, body) :: rest, code => do
      let code ← compileStmtList body code
      compileClauseBodies rest code
termination_by structural l => l
end

/-- Module lowering, translated from `Compiler::compile_body` composed with
`Compiler::compile` (`src/ast.rs`), starting from the delivered AST: compile
each statement, push `LoadConst None` only for an empty module, then append
`Return`. -/
def compileModule (body : List Stmt) : Except String CodeObject := do
  let code ← compileStmtList body CodeObject.empty
  let code :=
    if body.isEmpty then
      let (noneIdx, code) := constIndex code .none
      code.pushIns (.loadConst noneIdx)
    else code
  .ok (code.pushIns .ret)

/-- VM state, translated from the fields of `Vm` in `src/vm.rs`, plus the
process heap backing the `Rc<RefCell<...>>` cells and, as pure
instrumentation, `loads`: the names of the modules read from the filesystem
(one entry per cache miss in `load_module`), recorded to make "module body
executed at most once" observable.  Stack tops are list heads. -/
structure VmState where
  stack : List PyObject
  env : Env
  loopStack : List (Nat × Nat)
  iterStack : List (Nat × PyObject)
  modules : List (String × PyObject)
  heap : List Cell
  loads : List String

/-- Dispatch-loop register state of `Vm::run` (`src/vm.rs`): the VM, the
call-frame stack (`return_ip`, caller code, saved env), the current code
object and the instruction pointer. -/
structure Machine where
  vm : VmState
  frames : List (Nat × CodeObject × Env)
  cur : CodeObject
  ip : Nat

/-- Outcome of one iteration of the dispatch loop. -/
inductive StepResult where
  | next (m : Machine)
  | halt (v : PyObject) (vm : VmState)
  | fault (e : String)
  | noFuel

/-- Outcome of a bounded run of the dispatch loop. -/
inductive RunResult where
  | done (v : PyObject) (vm : VmState)
  | fault (e : String)
  | noFuel

/-- Outcome of `Vm::load_module`. -/
inductive LoadResult where
  | ok (v : PyObject) (st : VmState)
  | fault (e : String)
  | noFuel

/-- Filesystem model: module name to parsed module body (parsing is the
crate's external collaborator). -/
abbrev Fs : Type := List (String × List Stmt)

def Env.withGlobals : Env → List (String × PyObject) → Env
  | .mk l _ b, g => .mk l g b

/-- Pop `n` values one by one from the stack top, with the per-pop underflow
check of the source's argument loops; returns the popped values in pop order
(top of stack first) and the remaining stack. -/
def popArgs : Nat → List PyObject → Except String (List PyObject × List PyObject)
  | 0, st => .ok ([], st)
  | _ + 1, [] => .error "stack underflow"
  | n + 1, v :: rest => do
      let (vs, st2) ← popArgs n rest
      .ok (v :: vs, st2)

/-- Pop `n` (value, key) pairs for `BuildDict`: value first, then key, which
must be a Str; collected in pop order, as in the source loop. -/
def popPairs :
    Nat → List PyObject → Except String (List (String × PyObject) × List PyObject)
  | 0, st => .ok ([], st)
  | n + 1, value :: key :: rest =>
      match key with
      | .str k => do
          let (ps, st2) ← popPairs n rest
          .ok ((k, value) :: ps, st2)
      | _ => .error "TypeError: dict keys must be strings"
  | _ + 1, _ => .error "stack underflow"

/-- Hashability per the `Hash` impl of `PyObject` (`src/object.rs`): only
Int, Float, Bool, Str, None; anything else panics. -/
def hashable : PyObject → Bool
  | .int _ => true
  | .float _ => true
  | .bool _ => true
  | .str _ => true
  | .none => true
  | _ => false

/-- `HashSet::insert` modelled on a duplicate-free list: keep the set
unchanged when an equal element is present, else append. -/
def setInsert (items : List PyObject) (v : PyObject) : List PyObject :=
  if items.any (fun x => pyEq x v) then items else items ++ [v]

/-- Pop `n` values for `BuildSet`, inserting each into the set in pop order;
an unhashable element is the source's `Hash` panic. -/
def popSetItems :
    Nat → List PyObject → List PyObject → Except String (List PyObject × List PyObject)
  | 0, acc, st => .ok (acc, st)
  | n + 1, acc, v :: rest =>
      if hashable v then popSetItems n (setInsert acc v) rest
      else .error "panic: unhashable type"
  | _ + 1, _, [] => .error "stack underflow"

/-- Bind the imported names of `ImportFrom` from a module dictionary into the
locals map, translated from the per-name loops in the `Op::ImportFrom` arm of
`Vm::run`. -/
def importNamesFrom (cur : CodeObject) (mname : String)
    (d : List (String × PyObject)) :
    List Nat → List (String × PyObject) → Except String (List (String × PyObject))
  | [], locals => .ok locals
  | ni :: rest, locals =>
      match cur.names.get? ni with
      | Option.none => .error "panic: index out of range"
      | some n =>
          match lookupStr d n with
          | some v => importNamesFrom cur mname d rest (mapInsert locals n v)
          | Option.none =>
              .error ("ImportError: cannot import name \x27" ++ n ++
                "\x27 from \x27" ++ mname ++ "\x27")

/-- Bind every non-underscore name of a module dictionary into locals
(`Op::ImportStar` arm of `Vm::run`). -/
def importStarInto (entries : List (String × PyObject))
    (locals : List (String × PyObject)) : List (String × PyObject) :=
  entries.foldl
    (fun l kv => if kv.1.startsWith "_" then l else mapInsert l kv.1 kv.2) locals

/-- One iteration of the dispatch loop of `Vm::run` (`src/vm.rs`), translated
arm by arm; `loader` stands for the recursive `self.load_module` calls of
the import opcodes (tied to the module loader by `runVm`).  Reading past the end
of the instruction sequence is the source's `ip >= len` check, which returns
`Ok(PyObject::None)` out of the whole `run` — it halts the machine rather
than popping a call frame. -/
def execStepWith (loader : VmState → String → LoadResult) (m : Machine) :
    StepResult :=
  let st := m.vm
  match m.cur.instructions.get? m.ip with
  | Option.none => .halt .none st
  | some op =>
    match op with
    | .loadConst idx =>
        match m.cur.consts.get? idx with
        | some v =>
            .next { m with vm := { st with stack := v :: st.stack }, ip := m.ip + 1 }
        | Option.none => .fault "panic: index out of range"
    | .loadName idx =>
        match m.cur.names.get? idx with
        | Option.none => .fault "panic: index out of range"
        | some n =>
          match lookupStr st.env.locals n with
          | some v =>
              .next { m with vm := { st with stack := v :: st.stack }, ip := m.ip + 1 }
          | Option.none =>
            match lookupStr st.env.globals n with
            | some v =>
                .next { m with vm := { st with stack := v :: st.stack }, ip := m.ip + 1 }
            | Option.none =>
              match lookupStr st.env.builtins n with
              | some v =>
                  .next { m with vm := { st with stack := v :: st.stack }, ip := m.ip + 1 }
              | Option.none =>
                  .fault ("NameError: name \x27" ++ n ++ "\x27 is not defined")
    | .storeName idx =>
        match m.cur.names.get? idx with
        | Option.none => .fault "panic: index out of range"
        | some n =>
          match st.stack with
          | v :: rest =>
              .next { m with vm := { st with stack := rest, env := st.env.withLocals (mapInsert st.env.locals n v) }, ip := m.ip + 1 }
          | [] => .fault "stack underflow"
    | .loadGlobal idx =>
        match m.cur.names.get? idx with
        | Option.none => .fault "panic: index out of range"
        | some n =>
          match (lookupStr st.env.globals n).orElse
              (fun _ => lookupStr st.env.builtins n) with
          | some v =>
              .next { m with vm := { st with stack := v :: st.stack }, ip := m.ip + 1 }
          | Option.none =>
              .fault ("NameError: global \x27" ++ n ++ "\x27 is not defined")
    | .storeGlobal idx =>
        match m.cur.names.get? idx with
        | Option.none => .fault "panic: index out of range"
        | some n =>
          match st.stack with
          | v :: rest =>
              .next { m with vm := { st with stack := rest, env := st.env.withGlobals (mapInsert st.env.globals n v) }, ip := m.ip + 1 }
          | [] => .fault "stack underflow"
    | .pop =>
        .next { m with vm := { st with stack := st.stack.tail }, ip := m.ip + 1 }
    | .ret =>
        let popped :=
          match st.stack with
          | v :: r => (v, r)
          | [] => (PyObject.none, [])
        match m.frames with
        | (rip, parent, savedEnv) :: fr =>
            .next { vm := { st with stack := popped.1 :: popped.2, env := savedEnv }, frames := fr, cur := parent, ip := rip }
        | [] => .halt popped.1 { st with stack := popped.2 }
    | .call argc =>
        match popArgs argc st.stack with
        | .error e => .fault e
        | .ok (popped, stack1) =>
          let args := popped.reverse
          match stack1 with
          | [] => .fault "stack underflow"
          | callee :: stack2 =>
            match callee with
            | .function fname farity fcode fglobals =>
                if farity != argc then
                  .fault ("TypeError: " ++ fname ++ "() expected " ++
                    toString farity ++ " args, got " ++ toString argc)
                else
                  let newLocals := ((fcode.names.take argc).zip args).foldl
                    (fun l kv => mapInsert l kv.1 kv.2) []
                  .next { vm := { st with stack := stack2, env := Env.mk newLocals fglobals.globals st.env.builtins }, frames := (m.ip + 1, m.cur, st.env) :: m.frames, cur := fcode, ip := 0 }
            | .nativeFunction nname narity tag =>
                match narity with
                | some a =>
                    if a != argc then
                      .fault ("TypeError: " ++ nname ++ "() expected " ++
                        toString a ++ " args, got " ++ toString argc)
                    else
                      match nativeCall tag args st.heap with
                      | .ok (r, heap2) =>
                          .next { m with vm := { st with stack := r :: stack2, heap := heap2 }, ip := m.ip + 1 }
                      | .error e => .fault e
                | Option.none =>
                    match nativeCall tag args st.heap with
                    | .ok (r, heap2) =>
                        .next { m with vm := { st with stack := r :: stack2, heap := heap2 }, ip := m.ip + 1 }
                    | .error e => .fault e
            | _ => .fault "TypeError: object not callable"
    | .defFn nameIdx arity codeIdx =>
        match m.cur.names.get? nameIdx, m.cur.nested.get? codeIdx with
        | some fname, some fcode =>
            let f := PyObject.function fname arity fcode st.env
            .next { m with vm := { st with env := st.env.withLocals (mapInsert st.env.locals fname f) }, ip := m.ip + 1 }
        | _, _ => .fault "panic: index out of range"
    | .unaryNeg =>
        match st.stack with
        | operand :: rest =>
          match operand with
          | .int x =>
              .next { m with vm := { st with stack := .int (-x) :: rest }, ip := m.ip + 1 }
          | .float x =>
              .next { m with vm := { st with stack := .float (-x) :: rest }, ip := m.ip + 1 }
          | _ => .fault "TypeError: unsupported operand type for unary -"
        | [] => .fault "stack underflow"
    | .unaryPos =>
        match st.stack with
        | operand :: rest =>
          match operand with
          | .int x =>
              .next { m with vm := { st with stack := .int x :: rest }, ip := m.ip + 1 }
          | .float x =>
              .next { m with vm := { st with stack := .float x :: rest }, ip := m.ip + 1 }
          | _ => .fault "TypeError: unsupported operand type for unary +"
        | [] => .fault "stack underflow"
    | .add =>
        match st.stack with
        | b :: a :: rest =>
          match arithAdd a b with
          | .ok r =>
              .next { m with vm := { st with stack := r :: rest }, ip := m.ip + 1 }
          | .error e => .fault e
        | _ => .fault "stack underflow"
    | .sub =>
        match st.stack with
        | b :: a :: rest =>
          match arithSub a b with
          | .ok r =>
              .next { m with vm := { st with stack := r :: rest }, ip := m.ip + 1 }
          | .error e => .fault e
        | _ => .fault "stack underflow"
    | .mul =>
        match st.stack with
        | b :: a :: rest =>
          match arithMul a b with
          | .ok r =>
              .next { m with vm := { st with stack := r :: rest }, ip := m.ip + 1 }
          | .error e => .fault e
        | _ => .fault "stack underflow"
    | .div =>
        match st.stack with
        | b :: a :: rest =>
          match arithDiv a b with
          | .ok r =>
              .next { m with vm := { st with stack := r :: rest }, ip := m.ip + 1 }
          | .error e => .fault e
        | _ => .fault "stack underflow"
    | .eq =>
        match st.stack with
        | b :: a :: rest =>
            .next { m with vm := { st with stack := .bool (pyEq a b) :: rest }, ip := m.ip + 1 }
        | _ => .fault "stack underflow"
    | .ne =>
        match st.stack with
        | b :: a :: rest =>
            .next { m with vm := { st with stack := .bool (!pyEq a b) :: rest }, ip := m.ip + 1 }
        | _ => .fault "stack underflow"
    | .lt =>
        match st.stack with
        | b :: a :: rest =>
          match cmpLt a b with
          | .ok r =>
              .next { m with vm := { st with stack := r :: rest }, ip := m.ip + 1 }
          | .error e => .fault e
        | _ => .fault "stack underflow"
    | .le =>
        match st.stack with
        | b :: a :: rest =>
          match cmpLe a b with
          | .ok r =>
              .next { m with vm := { st with stack := r :: rest }, ip := m.ip + 1 }
          | .error e => .fault e
        | _ => .fault "stack underflow"
    | .gt =>
        match st.stack with
        | b :: a :: rest =>
          match cmpGt a b with
          | .ok r =>
              .next { m with vm := { st with stack := r :: rest }, ip := m.ip + 1 }
          | .error e => .fault e
        | _ => .fault "stack underflow"
    | .ge =>
        match st.stack with
        | b :: a :: rest =>
          match cmpGe a b with
          | .ok r =>
              .next { m with vm := { st with stack := r :: rest }, ip := m.ip + 1 }
          | .error e => .fault e
        | _ => .fault "stack underflow"
    | .jump target => .next { m with ip := target }
    | .jumpIfTrue target =>
        match st.stack with
        | v :: rest =>
            if !isFalsey st.heap v then
              .next { m with vm := { st with stack := rest }, ip := target }
            else
              .next { m with vm := { st with stack := rest }, ip := m.ip + 1 }
        | [] => .fault "stack underflow"
    | .jumpIfFalse target =>
        match st.stack with
        | v :: rest =>
            if isFalsey st.heap v then
              .next { m with vm := { st with stack := rest }, ip := target }
            else
              .next { m with vm := { st with stack := rest }, ip := m.ip + 1 }
        | [] => .fault "stack underflow"
    | .setupLoop exitAddr =>
        .next { m with vm := { st with loopStack := (m.ip + 1, exitAddr) :: st.loopStack }, ip := m.ip + 1 }
    | .popBlock =>
        .next { m with vm := { st with loopStack := st.loopStack.tail }, ip := m.ip + 1 }
    | .breakOp =>
        match st.loopStack with
        | (_, exitAddr) :: rest =>
            .next { m with vm := { st with loopStack := rest }, ip := exitAddr }
        | [] => .fault "SyntaxError: \x27break\x27 outside loop"
    | .continueOp =>
        match st.loopStack with
        | (contAddr, _) :: _ => .next { m with ip := contAddr }
        | [] => .fault "SyntaxError: \x27continue\x27 not properly in loop"
    | .getIter =>
        match st.stack with
        | obj :: rest =>
          match obj with
          | .list a =>
              .next { m with vm := { st with stack := rest, iterStack := (0, .list a) :: st.iterStack }, ip := m.ip + 1 }
          | .tuple t =>
              .next { m with vm := { st with stack := rest, iterStack := (0, .tuple t) :: st.iterStack }, ip := m.ip + 1 }
          | _ => .fault "TypeError: object is not iterable"
        | [] => .fault "stack underflow"
    | .forIter exitAddr =>
        match st.iterStack with
        | [] => .fault "RuntimeError: no iterator on stack"
        | (index, iterObj) :: rest =>
          match iterObj with
          | .list a =>
              match st.heap.get? a with
              | some (.listC items) =>
                  match items.get? index with
                  | some v =>
                      .next { m with vm := { st with stack := v :: st.stack, iterStack := (index + 1, iterObj) :: rest }, ip := m.ip + 1 }
                  | Option.none =>
                      .next { m with vm := { st with iterStack := rest }, ip := exitAddr }
              | _ => .fault "panic: invalid heap handle"
          | .tuple items =>
              match items.get? index with
              | some v =>
                  .next { m with vm := { st with stack := v :: st.stack, iterStack := (index + 1, iterObj) :: rest }, ip := m.ip + 1 }
              | Option.none =>
                  .next { m with vm := { st with iterStack := rest }, ip := exitAddr }
          | _ =>
              .next { m with vm := { st with iterStack := rest }, ip := exitAddr }
    | .buildList count =>
        match popArgs count st.stack with
        | .error e => .fault e
        | .ok (popped, rest) =>
            .next { m with vm := { st with stack := .list st.heap.length :: rest, heap := st.heap ++ [.listC popped.reverse] }, ip := m.ip + 1 }
    | .buildDict count =>
        match popPairs count st.stack with
        | .error e => .fault e
        | .ok (pairs, rest) =>
            let d := pairs.reverse.foldl (fun acc kv => mapInsert acc kv.1 kv.2) []
            .next { m with vm := { st with stack := .dict st.heap.length :: rest, heap := st.heap ++ [.dictC d] }, ip := m.ip + 1 }
    | .buildTuple count =>
        match popArgs count st.stack with
        | .error e => .fault e
        | .ok (popped, rest) =>
            .next { m with vm := { st with stack := .tuple popped.reverse :: rest }, ip := m.ip + 1 }
    | .buildSet count =>
        match popSetItems count [] st.stack with
        | .error e => .fault e
        | .ok (items, rest) =>
            .next { m with vm := { st with stack := .set st.heap.length :: rest, heap := st.heap ++ [.setC items] }, ip := m.ip + 1 }
    | .loadIndex =>
        match st.stack with
        | index :: obj :: rest =>
          match obj, index with
          | .list a, .int i =>
              match st.heap.get? a with
              | some (.listC items) =>
                  let j : Int := if i < 0 then (items.length : Int) + i else i
                  match items.get? (j % (2 ^ 64 : Int)).toNat with
                  | some v =>
                      .next { m with vm := { st with stack := v :: rest }, ip := m.ip + 1 }
                  | Option.none => .fault "IndexError: list index out of range"
              | _ => .fault "panic: invalid heap handle"
          | .dict a, .str k =>
              match st.heap.get? a with
              | some (.dictC entries) =>
                  match lookupStr entries k with
                  | some v =>
                      .next { m with vm := { st with stack := v :: rest }, ip := m.ip + 1 }
                  | Option.none => .fault ("KeyError: \x27" ++ k ++ "\x27")
              | _ => .fault "panic: invalid heap handle"
          | .tuple items, .int i =>
              let j : Int := if i < 0 then (items.length : Int) + i else i
              match items.get? (j % (2 ^ 64 : Int)).toNat with
              | some v =>
                  .next { m with vm := { st with stack := v :: rest }, ip := m.ip + 1 }
              | Option.none => .fault "IndexError: tuple index out of range"
          | _, _ => .fault "TypeError: invalid indexing operation"
        | _ => .fault "stack underflow"
    | .storeIndex =>
        match st.stack with
        | value :: index :: obj :: rest =>
          match obj, index with
          | .list a, .int i =>
              match st.heap.get? a with
              | some (.listC items) =>
                  let j : Int := if i < 0 then (items.length : Int) + i else i
                  let idx := (j % (2 ^ 64 : Int)).toNat
                  if idx < items.length then
                    .next { m with vm := { st with stack := rest, heap := st.heap.set a (.listC (items.set idx value)) }, ip := m.ip + 1 }
                  else .fault "IndexError: list assignment index out of range"
              | _ => .fault "panic: invalid heap handle"
          | .dict a, .str k =>
              match st.heap.get? a with
              | some (.dictC entries) =>
                  .next { m with vm := { st with stack := rest, heap := st.heap.set a (.dictC (mapInsert entries k value)) }, ip := m.ip + 1 }
              | _ => .fault "panic: invalid heap handle"
          | _, _ => .fault "TypeError: invalid indexing assignment"
        | _ => .fault "stack underflow"
    | .classDef _ _ => .fault "unmodelled: ClassDef"
    | .loadAttr idx =>
        match m.cur.names.get? idx with
        | Option.none => .fault "panic: index out of range"
        | some attr =>
          match st.stack with
          | obj :: rest =>
            match obj with
            | .module a =>
                match st.heap.get? a with
                | some (.moduleC mname d) =>
                    match lookupStr d attr with
                    | some v =>
                        .next { m with vm := { st with stack := v :: rest }, ip := m.ip + 1 }
                    | Option.none =>
                        .fault ("AttributeError: module \x27" ++ mname ++
                          "\x27 has no attribute \x27" ++ attr ++ "\x27")
                | _ => .fault "panic: invalid heap handle"
            | .nativeModule mname d =>
                match lookupStr d attr with
                | some v =>
                    .next { m with vm := { st with stack := v :: rest }, ip := m.ip + 1 }
                | Option.none =>
                    .fault ("AttributeError: module \x27" ++ mname ++
                      "\x27 has no attribute \x27" ++ attr ++ "\x27")
            | _ => .fault "AttributeError: object has no attributes"
          | [] => .fault "stack underflow"
    | .storeAttr idx =>
        match m.cur.names.get? idx with
        | Option.none => .fault "panic: index out of range"
        | some _ =>
          match st.stack with
          | _ :: _ :: _ => .fault "AttributeError: cannot set attribute"
          | _ => .fault "stack underflow"
    | .callMethod argc =>
        match popArgs argc st.stack with
        | .error e => .fault e
        | .ok (popped, stack1) =>
          let args := popped.reverse
          match stack1 with
          | [] => .fault "stack underflow"
          | method :: stack2 =>
            match method with
            | .nativeFunction _ _ tag =>
                match nativeCall tag args st.heap with
                | .ok (r, heap2) =>
                    .next { m with vm := { st with stack := r :: stack2, heap := heap2 }, ip := m.ip + 1 }
                | .error e => .fault e
            | _ => .fault "TypeError: object not callable"
    | .importName idx =>
        match m.cur.names.get? idx with
        | Option.none => .fault "panic: index out of range"
        | some mname =>
          match loader st mname with
          | .ok mobj st2 =>
              .next { m with vm := { st2 with env := st2.env.withLocals (mapInsert st2.env.locals mname mobj) }, ip := m.ip + 1 }
          | .fault e => .fault e
          | .noFuel => .noFuel
    | .importFrom moduleIdx nameIdxs =>
        match m.cur.names.get? moduleIdx with
        | Option.none => .fault "panic: index out of range"
        | some mname =>
          match loader st mname with
          | .fault e => .fault e
          | .noFuel => .noFuel
          | .ok mobj st2 =>
            match mobj with
            | .module a =>
                match st2.heap.get? a with
                | some (.moduleC _ d) =>
                    match importNamesFrom m.cur mname d nameIdxs st2.env.locals with
                    | .ok locals2 =>
                        .next { m with vm := { st2 with env := st2.env.withLocals locals2 }, ip := m.ip + 1 }
                    | .error e => .fault e
                | _ => .fault "panic: invalid heap handle"
            | .nativeModule _ d =>
                match importNamesFrom m.cur mname d nameIdxs st2.env.locals with
                | .ok locals2 =>
                    .next { m with vm := { st2 with env := st2.env.withLocals locals2 }, ip := m.ip + 1 }
                | .error e => .fault e
            | _ => .next { m with vm := st2, ip := m.ip + 1 }
    | .importStar idx =>
        match m.cur.names.get? idx with
        | Option.none => .fault "panic: index out of range"
        | some mname =>
          match loader st mname with
          | .fault e => .fault e
          | .noFuel => .noFuel
          | .ok mobj st2 =>
            match mobj with
            | .module a =>
                match st2.heap.get? a with
                | some (.moduleC _ d) =>
                    .next { m with vm := { st2 with env := st2.env.withLocals (importStarInto d st2.env.locals) }, ip := m.ip + 1 }
                | _ => .fault "panic: invalid heap handle"
            | .nativeModule _ d =>
                .next { m with vm := { st2 with env := st2.env.withLocals (importStarInto d st2.env.locals) }, ip := m.ip + 1 }
            | _ => .next { m with vm := st2, ip := m.ip + 1 }

/-- Module loading, translated from `Vm::load_module` (`src/vm.rs`): consult
the cache; else read the module body from the filesystem (recorded in
`loads`), compile it with a fresh compiler, run it in a fresh sub-VM with
standard builtins whose `modules` map is a *clone* of the caller's
(`self.modules.clone()` in the source) and whose heap is the shared process
heap, take the finished sub-VM's locals as the module dictionary, and insert
the module into the caller's cache.  The sub-VM's own cache is discarded, as
in the source. -/
def loadModuleWith (runner : Machine → RunResult) (fs : Fs) (st : VmState)
    (name : String) : LoadResult :=
  match lookupStr st.modules name with
  | some mobj => .ok mobj st
  | Option.none =>
    match lookupStr fs name with
    | Option.none =>
        .fault ("ModuleNotFoundError: No module named \x27" ++ name ++ "\x27")
    | some body =>
      let st := { st with loads := st.loads ++ [name] }
      match compileModule body with
      | .error e => .fault e
      | .ok code =>
        let subVm : VmState :=
          { stack := [], env := Env.mk [] [] builtinsMap, loopStack := []
            iterStack := [], modules := st.modules, heap := st.heap
            loads := st.loads }
        match runner { vm := subVm, frames := [], cur := code, ip := 0 } with
        | .done _ subFinal =>
            let mobj := PyObject.module subFinal.heap.length
            .ok mobj
              { st with heap := subFinal.heap ++ [.moduleC name subFinal.env.locals], modules := mapInsert st.modules name mobj, loads := subFinal.loads }
        | .fault e => .fault e
        | .noFuel => .noFuel

/-- Fuel-bounded dispatch loop of `Vm::run` (`src/vm.rs`): iterate
`execStepWith`, with the import opcodes loading modules through
`loadModuleWith`, whose sub-VMs run on the remaining fuel. -/
def runVm : Nat → Fs → Machine → RunResult
  | 0, _, _ => .noFuel
  | fuel + 1, fs, m =>
      match execStepWith (fun st n => loadModuleWith (runVm fuel fs) fs st n) m with
      | .next m2 => runVm fuel fs m2
      | .halt v vm => .done v vm
      | .fault e => .fault e
      | .noFuel => .noFuel

/-- Fresh VM with standard builtins (`Vm::default().with_builtins()`). -/
def initVmState : VmState :=
  { stack := [], env := Env.mk [] [] builtinsMap, loopStack := []
    iterStack := [], modules := [], heap := [], loads := [] }

/-- Compile a module body and run it on a fresh VM with standard builtins;
the composition performed by `execute` in `src/lib.rs` (with no host natives
registered) and by `Vm::load_module` for module files. -/
def runProgram (fuel : Nat) (body : List Stmt) : RunResult :=
  match compileModule body with
  | .error e => .fault e
  | .ok code => runVm fuel [] { vm := initVmState, frames := [], cur := code, ip := 0 }

/-- Run an already-compiled code object on a fresh VM with standard builtins
against a filesystem. -/
def runCode (fuel : Nat) (fs : Fs) (code : CodeObject) : RunResult :=
  runVm fuel fs { vm := initVmState, frames := [], cur := code, ip := 0 }

/-- Program result, when the run completed. -/
def RunResult.value : RunResult → Option PyObject
  | .done v _ => some v
  | _ => Option.none

/-- Final value stack, when the run completed. -/
def RunResult.finalStack : RunResult → Option (List PyObject)
  | .done _ st => some st.stack
  | _ => Option.none

/-- Final iterator stack, when the run completed. -/
def RunResult.finalIterStack : RunResult → Option (List (Nat × PyObject))
  | .done _ st => some st.iterStack
  | _ => Option.none

/-- Final module cache, when the run completed. -/
def RunResult.finalModules : RunResult → Option (List (String × PyObject))
  | .done _ st => some st.modules
  | _ => Option.none

/-- Filesystem-read trace (one entry per module-cache miss), when the run
completed. -/
def RunResult.loadTrace : RunResult → Option (List String)
  | .done _ st => some st.loads
  | _ => Option.none

/-- AST of `x = 1` then `def f(): return x` then `f()`: a module-level
variable read from a function body. -/
def c1Prog : List Stmt :=
  [.assign [.name "x"] (.intLit 1),
   .functionDef "f" [] [.returnStmt (some (.name "x"))],
   .exprStmt (.callExpr (.name "f") [])]

/-- AST of `def f(): x = 1` then `f()` then `42`: a callee with no return
statement, with caller code remaining after the call. -/
def c2Prog : List Stmt :=
  [.functionDef "f" [] [.assign [.name "x"] (.intLit 1)],
   .exprStmt (.callExpr (.name "f") []),
   .exprStmt (.intLit 42)]

/-- AST of `if False: r = 1` / `elif True: r = 2` / `else: r = 3` then `r`. -/
def c3Prog : List Stmt :=
  [.ifStmt (.booleanLit false) [.assign [.name "r"] (.intLit 1)]
     [(some (.booleanLit true), [.assign [.name "r"] (.intLit 2)]),
      (Option.none, [.assign [.name "r"] (.intLit 3)])],
   .exprStmt (.name "r")]

/-- AST of `sum = 0` / `for i in range(1, 8, 2): sum = sum + i` / `sum`. -/
def c4Prog : List Stmt :=
  [.assign [.name "sum"] (.intLit 0),
   .forStmt (.name "i")
     (.callExpr (.name "range") [.intLit 1, .intLit 8, .intLit 2])
     [.assign [.name "sum"] (.binOp (.name "sum") .bAdd (.name "i"))],
   .exprStmt (.name "sum")]

/-- Filesystem with `a.py` = `import b` and `b.py` = `y = 100`. -/
def c5Fs : Fs :=
  [("a", [.importStmt "b"]),
   ("b", [.assign [.name "y"] (.intLit 100)])]

/-- Bytecode performing a single `import a` (the compiler emits no import
opcodes, so the VM-level import contract is probed with direct bytecode). -/
def c5ImportA : CodeObject := .mk [] ["a"] [.importName 0, .ret] []

/-- Bytecode performing `import b` twice in the same VM. -/
def c5ImportBTwice : CodeObject :=
  .mk [] ["b"] [.importName 0, .importName 0, .ret] []

/-- AST of `x = {'a': 1}` / `x['b'] = 2` / `x['b']`: a subscript-target
assignment followed by a read through the same dict. -/
def c6Prog : List Stmt :=
  [.assign [.name "x"] (.dictExpr [(some (.stringLit "a"), .intLit 1)]),
   .assign [.subscript (.name "x") (.stringLit "b")] (.intLit 2),
   .exprStmt (.subscript (.name "x") (.stringLit "b"))]

/-- Bytecode of a for-loop over the one-element list `[1]` whose body breaks
immediately, in the loop shape of the spec (`SetupLoop exit; GetIter;
loop_top: ForIter exit; StoreName; body; Jump loop_top; exit: PopBlock`);
the loop exit address is 8 (the `PopBlock`). -/
def c7BreakCode : CodeObject :=
  .mk [.int 1, .none] ["i"]
    [.loadConst 0, .buildList 1, .setupLoop 8, .getIter, .forIter 8,
     .storeName 0, .breakOp, .jump 4, .popBlock, .loadConst 1, .ret] []

/-- The same loop without the break: it exits by iterator exhaustion. -/
def c7NormalCode : CodeObject :=
  .mk [.int 1, .none] ["i"]
    [.loadConst 0, .buildList 1, .setupLoop 7, .getIter, .forIter 7,
     .storeName 0, .jump 4, .popBlock, .loadConst 1, .ret] []

/-- One-instruction machine used to witness the `LoadIndex` theorem: stack
holds index `-1` over a two-element heap list. -/
def c10Machine : Machine :=
  { vm := { stack := [.int (-1), .list 0], env := Env.mk [] [] [],
            loopStack := [], iterStack := [], modules := [],
            heap := [.listC [.int 10, .int 20]], loads := [] },
    frames := [], cur := .mk [] [] [.loadIndex] [], ip := 0 }

/-- Variant of `c10Machine` whose index `-3` is below minus the length. -/
def c10MachineNeg : Machine :=
  { vm := { stack := [.int (-3), .list 0], env := Env.mk [] [] [],
            loopStack := [], iterStack := [], modules := [],
            heap := [.listC [.int 10, .int 20]], loads := [] },
    frames := [], cur := .mk [] [] [.loadIndex] [], ip := 0 }

/-- Machine used to witness the iterator-discipline theorem: a `ForIter 5`
over an exhausted list iterator, and a `Break` under one loop block. -/
def c7StepMachine : Machine :=
  { vm := { stack := [], env := Env.mk [] [] [], loopStack := [],
            iterStack := [(1, .list 0)], modules := [],
            heap := [.listC [.int 1]], loads := [] },
    frames := [], cur := .mk [] [] [.forIter 5] [], ip := 0 }

/-- Companion machine for the `Break` part of the iterator-discipline
theorem. -/
def c7BreakMachine : Machine :=
  { vm := { stack := [], env := Env.mk [] [] [], loopStack := [(3, 9)],
            iterStack := [(1, .list 0)], modules := [],
            heap := [.listC [.int 1]], loads := [] },
    frames := [], cur := .mk [] [] [.breakOp] [], ip := 0 }

/-- Trivial loader for theorems quantifying over the module loader. -/
def noLoader : VmState → String → LoadResult :=
  fun _ name => .fault ("ModuleNotFoundError: No module named \x27" ++ name ++ "\x27")

/-- VM state whose module cache already holds a module named `m`, used to
witness the cache-hit theorem. -/
def c5CachedState : VmState :=
  { stack := [], env := Env.mk [] [] [], loopStack := [], iterStack := [],
    modules := [("m", .module 0)], heap := [.moduleC "m" []], loads := [] }

/-- Small code object with one interned constant and one interned name, used
to witness the interning theorem. -/
def c8Code : CodeObject := .mk [.int 7] ["x"] [] []

theorem scanIdx_append_of_none {α : Type} (p : α → Bool) (l : List α) (v : α)
    (hl : scanIdx p l = Option.none) (hv : p v = true) :
    scanIdx p (l ++ [v]) = some l.length := by
  induction l with
  | nil => simp [scanIdx, hv]
  | cons a rest ih =>
      rw [scanIdx] at hl
      by_cases ha : p a
      · simp [ha] at hl
      · simp only [ha, if_neg, Bool.false_eq_true, not_false_iff, if_false] at hl
        have hr : scanIdx p rest = Option.none := by
          cases hrest : scanIdx p rest with
          | none => rfl
          | some k => rw [hrest] at hl; simp at hl
        rw [List.cons_append, scanIdx]
        simp [ha, ih hr]

theorem consts_withConsts (code : CodeObject) (c : List PyObject) :
    (code.withConsts c).consts = c := by
  cases code; rfl

theorem names_withNames (code : CodeObject) (n : List String) :
    (code.withNames n).names = n := by
  cases code; rfl

/-- C1: for a program that assigns a variable at module top level and later
defines a function whose body reads that variable, calling the function does
NOT resolve the variable — it faults with NameError.  Top-level assignments
go to `locals`, `Def` captures the whole env, but the `Call` dispatch rebuilds
the callee environment from the captured env's `globals` field only, so the
captured top-level locals are dropped.  This evaluates the code of
`Vm::run` (`Op::Def`, `Op::Call`) at the failing input `x = 1; def f():
return x; f()`. -/
theorem claim1_toplevel_read_from_function_faults :
    runProgram 64 c1Prog = .fault "NameError: name \x27x\x27 is not defined" := rfl

/-- C2: a call to a user-defined function whose body contains no return
statement does NOT resume the caller.  The callee's code falls off its end
and the `ip >= len` check returns `Ok(None)` out of the whole `Vm::run`, so
the program `def f(): x = 1` / `f()` / `42` evaluates to None and the
trailing `42` in the caller is never executed. -/
theorem claim2_missing_return_aborts_run :
    (runProgram 64 c2Prog).value = some PyObject.none ∧
    (runProgram 64 c2Prog).value ≠ some (PyObject.int 42) := by
  refine ⟨rfl, ?_⟩
  intro h
  have h0 : (runProgram 64 c2Prog).value = some PyObject.none := rfl
  rw [h0] at h
  injection h with h2
  exact PyObject.noConfusion h2

/-- C3: in `if False: r = 1 elif True: r = 2 else: r = 3`, the compiler
ignores the elif test and runs BOTH the elif body and the else body, so the
program evaluates to 3 where the claim's first-truthy-branch rule demands 2.
This evaluates `Compiler::compile_stmt` (If arm) plus `Vm::run` at the
failing input. -/
theorem claim3_elif_tests_ignored :
    (runProgram 64 c3Prog).value = some (PyObject.int 3) := rfl

/-- C4: the program `sum = 0; for i in range(1, 8, 2): sum = sum + i; sum`
does not run: `compile_stmt` has no For arm and its catch-all rejects the
statement, so the execute pipeline returns this error instead of Int 16. -/
theorem claim4_for_loop_program_rejected :
    compileModule c4Prog = .error "unsupported statement" ∧
    runProgram 64 c4Prog = .fault "unsupported statement" := ⟨rfl, rfl⟩

/-- C5 counterexample: an import whose module body itself contains an import
statement fails outright — `load_module` compiles the module body with the
same compiler, whose catch-all rejects import statements — so imports never
occur inside sub-VMs spawned for module loading, contradicting the claimed
shared-cache scenario.  Input: `import a` with `a.py` = `import b`. -/
theorem claim5_transitive_import_fails :
    runCode 64 c5Fs c5ImportA = .fault "unsupported statement" := rfl

/-- C6: the value stack is NOT empty after the final Return for the program
`x = {'a': 1}; x['b'] = 2; x['b']`: the Assign arm of `compile_stmt`
compiles the value expression once before matching the target and a second
time inside the subscript-target arm, so each subscript assignment leaks one
value; the program still evaluates to 2 but one Int 2 remains on the
stack. -/
theorem claim6_subscript_assign_leaks_stack :
    (runProgram 64 c6Prog).value = some (PyObject.int 2) ∧
    (runProgram 64 c6Prog).finalStack = some [PyObject.int 2] := ⟨rfl, rfl⟩

/-- C7 counterexample: after the for-loop over `[1]` exits via `Break`, the
iterator entry pushed by `GetIter` is still on the iterator stack (with its
advanced index), because the `Op::Break` arm pops only the loop-block stack;
run at the concrete loop bytecode `c7BreakCode`. -/
theorem claim7_break_leaves_iterator :
    (runCode 64 [] c7BreakCode).finalIterStack = some [(1, .list 0)] ∧
    (runCode 64 [] c7NormalCode).finalIterStack = some [] := ⟨rfl, rfl⟩

theorem list_get?_none {α : Type} (l : List α) (n : Nat) (h : l.length ≤ n) :
    l.get? n = Option.none :=
  List.get?_eq_none.mpr h

/-- C5 amended: within a single VM, importing an already-cached module name
is a pure cache hit — `load_module` returns the cached module object and
leaves the VM state (including the load trace) unchanged — and concretely,
`import b` executed twice in one VM reads and executes `b.py` exactly
once.  (The cache is copied, not shared, into sub-VMs, and module bodies
containing import statements do not compile, so imports never execute in
sub-VMs; see the counterexample.) -/
theorem claim5_cached_import_memoized :
    (∀ (fuel : Nat) (fs : Fs) (st : VmState) (name : String) (mobj : PyObject),
        lookupStr st.modules name = some mobj →
        loadModuleWith (runVm fuel fs) fs st name = .ok mobj st) ∧
    (runCode 64 c5Fs c5ImportBTwice).loadTrace = some ["b"] := by
  refine ⟨?_, rfl⟩
  intro fuel fs st name mobj h
  unfold loadModuleWith
  rw [h]

theorem claim5_cached_import_memoized_witness :
    loadModuleWith (runVm 1 []) [] c5CachedState "m" = .ok (.module 0) c5CachedState :=
  claim5_cached_import_memoized.1 1 [] c5CachedState "m" (.module 0) rfl

/-- C7 amended: when a for-loop exits normally — the `ForIter` dispatch arm
finds the top iterator (List or Tuple) exhausted — it pops the iterator entry
and jumps to the exit; when the loop exits early via `Break`, only the
loop-block entry is popped and the iterator entry remains on the iterator
stack. -/
theorem claim7_iterator_discipline :
    ∀ (loader : VmState → String → LoadResult) (m : Machine) (e : Nat),
      (∀ idx a rest items,
          m.cur.instructions.get? m.ip = some (.forIter e) →
          m.vm.iterStack = (idx, .list a) :: rest →
          m.vm.heap.get? a = some (.listC items) →
          items.length ≤ idx →
          execStepWith loader m =
            .next { m with vm := { m.vm with iterStack := rest }, ip := e }) ∧
      (∀ idx items rest,
          m.cur.instructions.get? m.ip = some (.forIter e) →
          m.vm.iterStack = (idx, .tuple items) :: rest →
          items.length ≤ idx →
          execStepWith loader m =
            .next { m with vm := { m.vm with iterStack := rest }, ip := e }) ∧
      (∀ c x rest,
          m.cur.instructions.get? m.ip = some .breakOp →
          m.vm.loopStack = (c, x) :: rest →
          execStepWith loader m =
            .next { m with vm := { m.vm with loopStack := rest }, ip := x }) := by
  intro loader m e
  refine ⟨?_, ?_, ?_⟩
  · intro idx a rest items hfetch hiter hheap hlen
    unfold execStepWith
    simp only [hfetch, hiter, hheap, list_get?_none items idx hlen]
  · intro idx items rest hfetch hiter hlen
    unfold execStepWith
    simp only [hfetch, hiter, list_get?_none items idx hlen]
  · intro c x rest hfetch hloop
    unfold execStepWith
    simp only [hfetch, hloop]

theorem claim7_iterator_discipline_witness :
    execStepWith noLoader c7StepMachine =
      .next { c7StepMachine with
                vm := { c7StepMachine.vm with iterStack := [] }, ip := 5 } ∧
    execStepWith noLoader c7BreakMachine =
      .next { c7BreakMachine with
                vm := { c7BreakMachine.vm with loopStack := [] }, ip := 9 } :=
  ⟨(claim7_iterator_discipline noLoader c7StepMachine 5).1 1 0 [] [.int 1]
      rfl rfl rfl (by decide),
   (claim7_iterator_discipline noLoader c7BreakMachine 0).2.2 3 9 []
      rfl rfl⟩

/-- C8: pool interning is idempotent — when the constant pool already holds
an entry structurally equal (`PartialEq`) to the requested value,
`const_index` returns the index of the first such entry and leaves the code
object unchanged; re-interning a value just interned never grows the pool
(given reflexivity of the equality at that value, which holds for every
compiler-created constant; the float NaN is the lone Rust exception);
`name_index` behaves the same on the name pool, unconditionally. -/
theorem claim8_pool_interning :
    ∀ (code : CodeObject) (v : PyObject) (s : String),
      (∀ i, scanIdx (fun c => pyEq c v) code.consts = some i →
          constIndex code v = (i, code)) ∧
      (pyEq v v = true →
          constIndex (constIndex code v).2 v = constIndex code v) ∧
      (∀ i, scanIdx (fun n => n == s) code.names = some i →
          nameIndex code s = (i, code)) ∧
      nameIndex (nameIndex code s).2 s = nameIndex code s := by
  intro code v s
  refine ⟨?_, ?_, ?_, ?_⟩
  · intro i h
    unfold constIndex
    rw [h]
  · intro hrefl
    cases h : scanIdx (fun c => pyEq c v) code.consts with
    | some i => simp [constIndex, h]
    | none =>
        have h2 := scanIdx_append_of_none (fun c => pyEq c v) code.consts v h hrefl
        simp [constIndex, h, consts_withConsts, h2]
  · intro i h
    unfold nameIndex
    rw [h]
  · cases h : scanIdx (fun n => n == s) code.names with
    | some i => simp [nameIndex, h]
    | none =>
        have hs : (s == s) = true := by simp
        have h2 := scanIdx_append_of_none (fun n => n == s) code.names s h hs
        simp [nameIndex, h, names_withNames, h2]

theorem claim8_pool_interning_witness :
    constIndex c8Code (.int 7) = (0, c8Code) ∧
    constIndex (constIndex c8Code (.str "a")).2 (.str "a") =
      constIndex c8Code (.str "a") ∧
    nameIndex c8Code "x" = (0, c8Code) :=
  ⟨(claim8_pool_interning c8Code (.int 7) "x").1 0 rfl,
   (claim8_pool_interning c8Code (.str "a") "x").2.1 rfl,
   (claim8_pool_interning c8Code (.int 7) "x").2.2.1 0 rfl⟩

/-- C9: the `range` builtin returns a ValueError exactly when called with
three integer arguments whose third (step) argument is 0, and for every
integer `n ≤ 0` the call `range(n)` succeeds with an empty item list (an
empty List value after the caller's allocation). -/
theorem claim9_range_value_error :
    (∀ args : List PyObject,
        rangeNative args = .error "ValueError: range() arg 3 must not be zero" ↔
        ∃ a b : Int, args = [.int a, .int b, .int 0]) ∧
    (∀ n : Int, n ≤ 0 → rangeNative [.int n] = .ok []) := by
  constructor
  · intro args
    constructor
    · intro h
      unfold rangeNative at h
      split at h <;> revert h <;> simp
    · rintro ⟨a, b, rfl⟩
      simp [rangeNative]
  · intro n hn
    have hstop : ¬ ((0 : Int) < 1 ∧ (0 : Int) < n) := by omega
    simp only [rangeNative, rangeItems]
    rw [rangeUp, dif_neg hstop]
    simp

theorem claim9_range_value_error_witness :
    rangeNative [.int 2, .int 7, .int 0] =
      .error "ValueError: range() arg 3 must not be zero" ∧
    rangeNative [.int (-3)] = .ok [] :=
  ⟨(claim9_range_value_error.1 [.int 2, .int 7, .int 0]).mpr ⟨2, 7, rfl⟩,
   claim9_range_value_error.2 (-3) (by decide)⟩

/-- C10: `LoadIndex` on a List or a Tuple with an Int key is total (within
the i64 key range and the `Vec` length bound of `isize::MAX`): when the key —
after adding the container length to a negative key — lands in bounds, the
selected element is pushed; otherwise, including keys smaller than minus the
length (whose `as usize` cast wraps to a huge index), it faults with
IndexError, never a panic. -/
theorem claim10_load_index_total :
    ∀ (loader : VmState → String → LoadResult) (m : Machine) (i : Int)
      (rest : List PyObject),
      m.cur.instructions.get? m.ip = some .loadIndex →
      -(2 ^ 63) ≤ i → i < 2 ^ 63 →
      ((∀ a items,
          m.vm.stack = .int i :: .list a :: rest →
          m.vm.heap.get? a = some (.listC items) →
          (items.length : Int) < 2 ^ 63 →
          ((∀ x, (0 ≤ i ∨ 0 ≤ (items.length : Int) + i) →
              items.get? (if i < 0 then ((items.length : Int) + i).toNat
                          else i.toNat) = some x →
              execStepWith loader m =
                .next { m with vm := { m.vm with stack := x :: rest }, ip := m.ip + 1 }) ∧
           (((items.length : Int) ≤ i ∨ (items.length : Int) + i < 0) →
              execStepWith loader m =
                .fault "IndexError: list index out of range"))) ∧
       (∀ items,
          m.vm.stack = .int i :: .tuple items :: rest →
          (items.length : Int) < 2 ^ 63 →
          ((∀ x, (0 ≤ i ∨ 0 ≤ (items.length : Int) + i) →
              items.get? (if i < 0 then ((items.length : Int) + i).toNat
                          else i.toNat) = some x →
              execStepWith loader m =
                .next { m with vm := { m.vm with stack := x :: rest }, ip := m.ip + 1 }) ∧
           (((items.length : Int) ≤ i ∨ (items.length : Int) + i < 0) →
              execStepWith loader m =
                .fault "IndexError: tuple index out of range")))) := by
  intro loader m i rest hfetch hlo hhi
  constructor
  · intro a items hstack hheap hlen
    constructor
    · intro x hguard hx
      have hmod : ((if i < 0 then (items.length : Int) + i else i) %
            (2 ^ 64 : Int)).toNat =
          (if i < 0 then ((items.length : Int) + i).toNat else i.toNat) := by
        split <;> rcases hguard with hg | hg <;> omega
      unfold execStepWith
      simp only [hfetch, hstack, hheap, hmod, hx]
    · intro hout
      have hnone : items.get?
          (((if i < 0 then (items.length : Int) + i else i) %
            (2 ^ 64 : Int)).toNat) = Option.none := by
        apply list_get?_none
        rcases hout with hg | hg
        · have hnn : ¬ i < 0 := by omega
          simp only [hnn, if_false]
          omega
        · have hneg : i < 0 := by omega
          simp only [hneg, if_true]
          omega
      unfold execStepWith
      simp only [hfetch, hstack, hheap, hnone]
  · intro items hstack hlen
    constructor
    · intro x hguard hx
      have hmod : ((if i < 0 then (items.length : Int) + i else i) %
            (2 ^ 64 : Int)).toNat =
          (if i < 0 then ((items.length : Int) + i).toNat else i.toNat) := by
        split <;> rcases hguard with hg | hg <;> omega
      unfold execStepWith
      simp only [hfetch, hstack, hmod, hx]
    · intro hout
      have hnone : items.get?
          (((if i < 0 then (items.length : Int) + i else i) %
            (2 ^ 64 : Int)).toNat) = Option.none := by
        apply list_get?_none
        rcases hout with hg | hg
        · have hnn : ¬ i < 0 := by omega
          simp only [hnn, if_false]
          omega
        · have hneg : i < 0 := by omega
          simp only [hneg, if_true]
          omega
      unfold execStepWith
      simp only [hfetch, hstack, hnone]

theorem claim10_load_index_total_witness :
    execStepWith noLoader c10Machine =
      .next { c10Machine with
                vm := { c10Machine.vm with stack := [.int 20] }
                ip := 1 } ∧
    execStepWith noLoader c10MachineNeg =
      .fault "IndexError: list index out of range" := by
  have h1 := claim10_load_index_total noLoader c10Machine (-1) [] rfl
    (by decide) (by decide)
  have h2 := claim10_load_index_total noLoader c10MachineNeg (-3) [] rfl
    (by decide) (by decide)
  refine ⟨?_, ?_⟩
  · exact (h1.1 0 [.int 10, .int 20] rfl rfl (by decide)).1 (.int 20)
      (Or.inr (by decide)) rfl
  · exact (h2.1 0 [.int 10, .int 20] rfl rfl (by decide)).2
      (Or.inr (by decide))

end RPy
